import Mathlib

/-!
Verification of the garmin-microservice repository: a shallow embedding of
the token-backed session bootstrap (app/garmin_client.py, app/bootstrap_tokens.py)
and the per-field fault-tolerant metric aggregation serving the HTTP routes
(app/main.py), together with theorems settling the specification claims.

Conventions of the embedding:
- Upstream JSON-ish documents are structures whose fields are `Option`-typed;
  `none` models a missing key or a JSON null (every read in the source goes
  through `dict.get`, which collapses the two).  Where the source distinguishes
  key presence from a null value (the `in` operator), the field is
  `Option (Option _)`.
- Python truthiness (`x or y`, `if x:`) is modeled explicitly by the `pyOr*`
  and `pyTruthy*` helpers: `0`, `""`, `None`, empty containers are falsy.
- A call to the upstream service is modeled as an `Except Unit`-valued slot of
  an upstream-state structure: `.error ()` models the call raising.
- Numbers are `ℚ`; every definition is executable.
-/

namespace GarminMS

/-- JSON-ish scalar value stored in a normalized output record. -/
inductive JVal where
  | str (s : String)
  | num (q : ℚ)
deriving DecidableEq

/-- A normalized output record: insertion-ordered keys, each mapped to a value
or to an explicit `None` (modeled as `none`). -/
abbrev JRecord := List (String × Option JVal)

/-- Python `a or b` on optional strings: the left operand wins when it is
truthy (present and nonempty), otherwise the right operand is returned as is. -/
def pyOrStr (a b : Option String) : Option String :=
  match a with
  | some s => if s ≠ "" then some s else b
  | none => b

/-- Python truthiness of an optional string. -/
def pyTruthyStr : Option String → Bool
  | some s => s ≠ ""
  | none => false

/-- Python `a or b` on optional numbers: the left operand wins when it is
truthy (present and nonzero), otherwise the right operand is returned as is. -/
def pyOrQ (a b : Option ℚ) : Option ℚ :=
  match a with
  | some q => if q ≠ 0 then some q else b
  | none => b

/-- Python truthiness of an optional number. -/
def pyTruthyQ : Option ℚ → Bool
  | some q => q ≠ 0
  | none => false

/-- Python str.upper, modeled as an uppercase map over the character list
(the token `String.toUpper` of the library does not reduce in the kernel, so
the map is spelled out). -/
def pyUpper (s : String) : String := String.mk (s.data.map Char.toUpper)

/-- Wrap an optional number as a record value (monomorphic helper). -/
def jnum (o : Option ℚ) : Option JVal := o.map JVal.num

/-- Wrap an optional string as a record value (monomorphic helper). -/
def jstr (o : Option String) : Option JVal := o.map JVal.str

/-! ## Activity mapping (GarminClient._map_activity, lines 207-252) -/

/-- An upstream activity document, holding exactly the reads `_map_activity`,
`within` and the threshold-pace fallback perform.  Nested lookups such as
`(a.get("activityType") or {}).get("typeKey")` are flattened to one optional
field (`none` covers a missing outer key, a null/empty outer dict, and a
missing inner key, which the guarded source code treats identically).
`activityId` keeps the extra `Option` layer because `get_activities_range`
tests key presence with the `in` operator. -/
structure ActDoc where
  activityId : Option (Option ℚ) := none
  startTimeLocal : Option String := none
  startTimeGMT : Option String := none
  activityTypeKey : Option String := none
  activityTypeDTOKey : Option String := none
  activityName : Option String := none
  activityNameDTODisplay : Option String := none
  averageSpeed : Option ℚ := none
  distance : Option ℚ := none
  movingDuration : Option ℚ := none
  duration : Option ℚ := none
  elevationGain : Option ℚ := none
  elevationLoss : Option ℚ := none
  averageHR : Option ℚ := none
  maxHR : Option ℚ := none
  averageRunCadence : Option ℚ := none
  averageCyclingCadence : Option ℚ := none
  averagePower : Option ℚ := none
  maxPower : Option ℚ := none
  normalizedPower : Option ℚ := none
  calories : Option ℚ := none
  vO2MaxValue : Option ℚ := none
  aerobicTrainingEffect : Option ℚ := none
  anaerobicTrainingEffect : Option ℚ := none
  trainingLoad : Option ℚ := none
  averageTemperature : Option ℚ := none
  minTemperature : Option ℚ := none
  maxTemperature : Option ℚ := none
  strideLength : Option ℚ := none
  verticalOscillation : Option ℚ := none
  avgGrade : Option ℚ := none
  avgGradeAdjusted : Option ℚ := none
  avgVerticalSpeed : Option ℚ := none
  deviceId : Option ℚ := none
deriving DecidableEq

/-- Embedding of the module-level helper `_pace_sec_per_km` (lines 260-263):
`None` is returned when the speed is falsy or nonpositive, else `1000.0 / speed`. -/
def paceSecPerKm (speedMps : ℚ) : Option ℚ :=
  if speedMps = 0 ∨ speedMps ≤ 0 then none else some (1000 / speedMps)

/-- Pace derivation inside `_map_activity` (lines 210-216): when `averageSpeed`
is truthy the helper is used (the duration fallback is NOT consulted even when
the helper returns `None` for a nonpositive speed); otherwise the fallback
`movingDuration / (distance / 1000)` applies when distance and moving duration
are both truthy. -/
def mapActivityPace (a : ActDoc) : Option ℚ :=
  if pyTruthyQ a.averageSpeed then
    match a.averageSpeed with
    | some v => paceSecPerKm v
    | none => none
  else if pyTruthyQ a.distance ∧ pyTruthyQ a.movingDuration then
    match a.movingDuration, a.distance with
    | some m, some d => some (m / (d / 1000))
    | _, _ => none
  else none

/-- Embedding of `GarminClient._map_activity` (lines 207-252): the normalized
Activity Record, an insertion-ordered record with a fixed key set. -/
def mapActivity (a : ActDoc) : JRecord :=
  let atype := pyOrStr a.activityTypeKey a.activityTypeDTOKey
  let name := pyOrStr a.activityName a.activityNameDTODisplay
  [("id", jnum (a.activityId.getD none)),
   ("start_time_local", jstr a.startTimeLocal),
   ("start_time_utc", jstr a.startTimeGMT),
   ("activity_type",
     match atype with
     | some s => if s ≠ "" then some (JVal.str (pyUpper s)) else none
     | none => none),
   ("name", jstr name),
   ("duration_s", jnum a.duration),
   ("moving_duration_s", jnum a.movingDuration),
   ("distance_m", jnum a.distance),
   ("elevation_gain_m", jnum a.elevationGain),
   ("elevation_loss_m", jnum a.elevationLoss),
   ("avg_hr", jnum a.averageHR),
   ("max_hr", jnum a.maxHR),
   ("avg_cadence", jnum (pyOrQ a.averageRunCadence a.averageCyclingCadence)),
   ("avg_power_w", jnum a.averagePower),
   ("max_power_w", jnum a.maxPower),
   ("np_w", jnum a.normalizedPower),
   ("avg_pace_s_per_km", jnum (mapActivityPace a)),
   ("avg_speed_mps", jnum a.averageSpeed),
   ("calories", jnum a.calories),
   ("vo2max_value", jnum a.vO2MaxValue),
   ("aerobic_te", jnum a.aerobicTrainingEffect),
   ("anaerobic_te", jnum a.anaerobicTrainingEffect),
   ("training_load_epoc", jnum a.trainingLoad),
   ("avg_temperature_c", jnum a.averageTemperature),
   ("min_temperature_c", jnum a.minTemperature),
   ("max_temperature_c", jnum a.maxTemperature),
   ("stride_length_m", jnum a.strideLength),
   ("vertical_osc_mm", jnum a.verticalOscillation),
   ("avg_grade_percent", jnum (pyOrQ a.avgGrade a.avgGradeAdjusted)),
   ("avg_vam", jnum a.avgVerticalSpeed),
   ("avg_run_cadence", jnum a.averageRunCadence),
   ("device", jnum a.deviceId),
   ("source", some (JVal.str "GarminConnect")),
   ("note", some (JVal.str ""))]

/-- The fixed key set of a normalized Activity Record, in source order. -/
def activityRecordKeys : List String :=
  ["id", "start_time_local", "start_time_utc", "activity_type", "name",
   "duration_s", "moving_duration_s", "distance_m", "elevation_gain_m",
   "elevation_loss_m", "avg_hr", "max_hr", "avg_cadence", "avg_power_w",
   "max_power_w", "np_w", "avg_pace_s_per_km", "avg_speed_mps", "calories",
   "vo2max_value", "aerobic_te", "anaerobic_te", "training_load_epoc",
   "avg_temperature_c", "min_temperature_c", "max_temperature_c",
   "stride_length_m", "vertical_osc_mm", "avg_grade_percent", "avg_vam",
   "avg_run_cadence", "device", "source", "note"]

/-- Pace derivation written from the words of the specification, for
comparison with the code: `1000 / speed` when speed is present and positive,
else `duration / (distance / 1000)` when both are present and distance is
nonzero, else absent. -/
def paceSpec (speed dur dist : Option ℚ) : Option ℚ :=
  let fallback : Option ℚ :=
    match dur, dist with
    | some m, some d => if d ≠ 0 then some (m / (d / 1000)) else none
    | _, _ => none
  match speed with
  | some v => if 0 < v then some (1000 / v) else fallback
  | none => fallback

/-- Predicate written from the words of claim C10: some type key is found in
the document (at either of the two vendor locations). -/
def typeKeyFound (a : ActDoc) : Bool :=
  a.activityTypeKey.isSome || a.activityTypeDTOKey.isSome

/-- Lookup of the pace entry of a mapped record reduces to `mapActivityPace`. -/
theorem mapActivity_lookup_pace (a : ActDoc) :
    (mapActivity a).lookup "avg_pace_s_per_km" = some (jnum (mapActivityPace a)) := rfl

/-- Lookup of the activity-type entry of a mapped record. -/
theorem mapActivity_lookup_atype (a : ActDoc) :
    (mapActivity a).lookup "activity_type" =
      some (match pyOrStr a.activityTypeKey a.activityTypeDTOKey with
            | some s => if s ≠ "" then some (JVal.str (pyUpper s)) else none
            | none => none) := rfl

/-- Activity document with a positive average speed (spec example 1). -/
def speedDoc : ActDoc := { averageSpeed := some (5/2) }

/-- Activity document with no speed but moving duration and distance
(spec example 2). -/
def durDoc : ActDoc := { movingDuration := some 1800, distance := some 5000 }

/-- Activity document with neither speed nor duration/distance. -/
def emptyPaceDoc : ActDoc := {}

/-- Activity document with a present but negative average speed, together with
a usable duration/distance pair. -/
def negSpeedDoc : ActDoc :=
  { averageSpeed := some (-(5/2)), movingDuration := some 1800, distance := some 5000 }

/-- Claim C4 as stated is false: for a document with average speed present but
negative (`-2.5`), the claim requires the duration fallback (`1800 / 5 = 360`),
but the code takes the truthy-speed branch, `_pace_sec_per_km` returns `None`
for a nonpositive speed, and the fallback is never consulted, so the output
pace is absent. -/
theorem C4_pace_counterexample :
    paceSpec negSpeedDoc.averageSpeed negSpeedDoc.movingDuration negSpeedDoc.distance
      = some 360
    ∧ (mapActivity negSpeedDoc).lookup "avg_pace_s_per_km" = some none
    ∧ (some none : Option (Option JVal)) ≠ some (some (JVal.num 360)) := by
  refine ⟨by norm_num [paceSpec, negSpeedDoc], ?_, by simp⟩
  rw [mapActivity_lookup_pace]
  norm_num [mapActivityPace, negSpeedDoc, pyTruthyQ, paceSecPerKm, jnum]

/-- Claim C4 amended: `avg_pace_s_per_km` is `1000 / average_speed_m_per_s`
when the average speed is present and positive; it is absent when the average
speed is present and negative (the duration fallback is not consulted); when
the average speed is absent or zero, it is `moving_duration_s /
(distance_m / 1000)` when moving duration and distance are both present and
nonzero, and absent when either is absent or zero.  In particular speed `2.5`
gives `400`, no speed with duration `1800` and distance `5000` gives `360`,
and neither input gives absent (see the witness). -/
theorem C4_pace_amended (a : ActDoc) :
    (∀ q : ℚ, a.averageSpeed = some q → 0 < q →
        (mapActivity a).lookup "avg_pace_s_per_km" = some (some (JVal.num (1000 / q))))
    ∧ (∀ q : ℚ, a.averageSpeed = some q → q < 0 →
        (mapActivity a).lookup "avg_pace_s_per_km" = some none)
    ∧ ((a.averageSpeed = none ∨ a.averageSpeed = some 0) →
        (∀ m d : ℚ, a.movingDuration = some m → a.distance = some d → m ≠ 0 → d ≠ 0 →
            (mapActivity a).lookup "avg_pace_s_per_km" = some (some (JVal.num (m / (d / 1000)))))
        ∧ ((a.movingDuration = none ∨ a.movingDuration = some 0
            ∨ a.distance = none ∨ a.distance = some 0) →
            (mapActivity a).lookup "avg_pace_s_per_km" = some none)) := by
  refine ⟨?_, ?_, ?_⟩
  · intro q hq hpos
    rw [mapActivity_lookup_pace]
    simp [mapActivityPace, hq, pyTruthyQ, paceSecPerKm, hpos.ne', not_le.mpr hpos, jnum]
  · intro q hq hneg
    rw [mapActivity_lookup_pace]
    simp [mapActivityPace, hq, pyTruthyQ, paceSecPerKm, hneg.ne, hneg.le, jnum]
  · intro hsp
    constructor
    · intro m d hm hd hm0 hd0
      rw [mapActivity_lookup_pace]
      rcases hsp with h | h <;>
        simp [mapActivityPace, h, hm, hd, pyTruthyQ, hm0, hd0, jnum]
    · intro hbad
      rw [mapActivity_lookup_pace]
      rcases hsp with h | h <;> rcases hbad with h2 | h2 | h2 | h2 <;>
        simp [mapActivityPace, h, h2, pyTruthyQ, jnum]

/-- Witness for the amended C4 theorem: the three worked examples of the
specification hold of the code. -/
theorem C4_pace_amended_witness :
    (mapActivity speedDoc).lookup "avg_pace_s_per_km" = some (some (JVal.num 400))
    ∧ (mapActivity durDoc).lookup "avg_pace_s_per_km" = some (some (JVal.num 360))
    ∧ (mapActivity emptyPaceDoc).lookup "avg_pace_s_per_km" = some none := by
  refine ⟨?_, ?_, ?_⟩
  · have h := (C4_pace_amended speedDoc).1 (5/2) rfl (by norm_num)
    rw [h]
    norm_num
  · have h := ((C4_pace_amended durDoc).2.2 (Or.inl rfl)).1 1800 5000 rfl rfl
      (by norm_num) (by norm_num)
    rw [h]
    norm_num
  · exact ((C4_pace_amended emptyPaceDoc).2.2 (Or.inl rfl)).2 (Or.inl rfl)

/-- Activity document whose type key is present but empty. -/
def emptyTypeDoc : ActDoc := { activityTypeKey := some "" }

/-- Activity document with type key `running`. -/
def runningTypeDoc : ActDoc := { activityTypeKey := some "running" }

/-- Claim C10 as stated is false: for a document whose `activityType.typeKey`
is the empty string, a type key IS found, yet the mapped `activity_type` is
absent rather than the uppercased key, because the code tests Python
truthiness of the key, not presence. -/
theorem C10_record_counterexample :
    typeKeyFound emptyTypeDoc = true
    ∧ (mapActivity emptyTypeDoc).lookup "activity_type" = some none := ⟨rfl, rfl⟩

/-- Claim C10 amended: for every activity document the mapped record has
exactly the fixed declared key set, `source` is always `GarminConnect`,
`note` is always the empty string, and `activity_type` is the uppercased type
key when a truthy (nonempty) type key is found, and absent when no type key
is found or the found key is empty. -/
theorem C10_record_amended (a : ActDoc) :
    ((mapActivity a).map Prod.fst = activityRecordKeys)
    ∧ ((mapActivity a).lookup "source" = some (some (JVal.str "GarminConnect")))
    ∧ ((mapActivity a).lookup "note" = some (some (JVal.str "")))
    ∧ (∀ s, pyOrStr a.activityTypeKey a.activityTypeDTOKey = some s → s ≠ "" →
        (mapActivity a).lookup "activity_type" = some (some (JVal.str (pyUpper s))))
    ∧ ((pyOrStr a.activityTypeKey a.activityTypeDTOKey = none
        ∨ pyOrStr a.activityTypeKey a.activityTypeDTOKey = some "") →
        (mapActivity a).lookup "activity_type" = some none) := by
  refine ⟨rfl, rfl, rfl, ?_, ?_⟩
  · intro s hs hne
    rw [mapActivity_lookup_atype, hs]
    simp [hne]
  · intro h
    rw [mapActivity_lookup_atype]
    rcases h with h | h <;> simp [h]

/-- Witness for the amended C10 theorem at a concrete document. -/
theorem C10_record_amended_witness :
    ((mapActivity runningTypeDoc).map Prod.fst = activityRecordKeys)
    ∧ (mapActivity runningTypeDoc).lookup "activity_type"
        = some (some (JVal.str "RUNNING")) := by
  refine ⟨(C10_record_amended runningTypeDoc).1, ?_⟩
  have h := (C10_record_amended runningTypeDoc).2.2.2.1 "running" rfl (by decide)
  rw [h]
  rfl

/-! ## Activity listing (GarminClient.get_activities_range, lines 45-58) -/

/-- Outcome classes of an upstream call in `get_activities_range`: the source
catches `AttributeError` specially and lets every other exception propagate. -/
inductive UpErr where
  | attributeError
  | other
deriving DecidableEq

/-- Upstream state seen by `get_activities_range`: the by-date listing call
(with the two formatted date arguments) and the recent-activities listing call
(with its start/limit arguments). -/
structure ActUpstream where
  byDate : String → String → Except UpErr (List ActDoc)
  recent : Nat → Nat → Except UpErr (List ActDoc)

/-- Python string comparison, lexicographic on code points, as a boolean
less-or-equal on character lists. -/
def strLe : List Char → List Char → Bool
  | [], _ => true
  | _ :: _, [] => false
  | x :: xs, y :: ys =>
      if x.val < y.val then true
      else if y.val < x.val then false
      else strLe xs ys

/-- Embedding of the local predicate `within` of `get_activities_range`
(lines 52-54): the start time (local, else GMT, with Python truthiness) is
truthy and its first ten characters lie between the two formatted dates. -/
def within (d0s d1s : String) (r : ActDoc) : Bool :=
  match pyOrStr r.startTimeLocal r.startTimeGMT with
  | some st =>
      if st = "" then false
      else strLe d0s.data (st.data.take 10) && strLe (st.data.take 10) d1s.data
  | none => false

/-- An element of the list `get_activities_range` returns: either a raw
upstream document or a mapped Activity Record (the source builds a plain
Python list that can hold either). -/
abbrev ActOut := ActDoc ⊕ JRecord

/-- The membership test `"activityId" in items[0]` (line 56) on either shape. -/
def outHasActivityId : ActOut → Bool
  | .inl d => d.activityId.isSome
  | .inr r => (r.lookup "activityId").isSome

/-- The re-mapping pass of line 57.  A mapped record never contains the key
`activityId`, so the `.inr` branch is unreachable from the guard of `postMap`
and is the identity. -/
def remapOut : ActOut → ActOut
  | .inl d => .inr (mapActivity d)
  | .inr r => .inr r

/-- The conditional mapping step of lines 56-57: when the accumulated list is
nonempty and its first element still carries the raw `activityId` key, every
element is mapped. -/
def postMap (items : List ActOut) : List ActOut :=
  match items.head? with
  | some first => if outHasActivityId first then items.map remapOut else items
  | none => items

/-- Embedding of `GarminClient.get_activities_range` (lines 45-58), taking the
two dates already formatted as `YYYY-MM-DD` strings (the source formats them
with strftime before the call and isoformat inside `within`; both give the
same string).  One by-date listing call is made; only an `AttributeError`
falls back to one recent-activities call filtered by date; any other listing
failure, and any failure of the fallback call, propagates. -/
def getActivitiesRange (u : ActUpstream) (d0s d1s : String) :
    Except UpErr (List ActOut) :=
  match u.byDate d0s d1s with
  | .ok items => .ok (postMap (items.map Sum.inl))
  | .error .attributeError =>
      match u.recent 0 400 with
      | .error e => .error e
      | .ok recentL =>
          .ok (postMap
            (((recentL.filter fun a => within d0s d1s a)).map fun a => Sum.inr (mapActivity a)))
  | .error .other => .error .other

/-- The conditional mapping step preserves the length of the accumulation. -/
theorem postMap_length (l : List ActOut) : (postMap l).length = l.length := by
  cases l with
  | nil => rfl
  | cons a t =>
      simp only [postMap, List.head?]
      split <;> simp

/-- Upstream whose by-date listing call fails with a generic error. -/
def failListingUpstream : ActUpstream :=
  { byDate := fun _ _ => .error .other, recent := fun _ _ => .ok [] }

/-- Claim C3 as stated is false: when the listing call fails (with anything
but an `AttributeError`), `get_activities_range` does not return the empty
accumulation already gathered; the exception propagates to the caller. -/
theorem C3_pagination_counterexample :
    getActivitiesRange failListingUpstream "2024-01-01" "2024-01-31" = .error UpErr.other
    ∧ (Except.error UpErr.other : Except UpErr (List ActOut)) ≠ .ok [] :=
  ⟨rfl, by simp⟩

/-- Claim C3 amended: `get_activities_range` issues a single, non-paginated
by-date listing query and returns its full result (after the conditional
mapping pass, which preserves length).  Only an `AttributeError` from that
query triggers the fallback: one recent-activities query (0, 400) filtered to
the inclusive date range.  A non-`AttributeError` listing failure, or a
failure of the fallback query, propagates to the caller; no partial
accumulation is returned and no pagination loop exists. -/
theorem C3_range_amended (u : ActUpstream) (d0s d1s : String) :
    (∀ xs, u.byDate d0s d1s = .ok xs →
        ∃ l, getActivitiesRange u d0s d1s = .ok l ∧ l.length = xs.length)
    ∧ (u.byDate d0s d1s = .error .other →
        getActivitiesRange u d0s d1s = .error .other)
    ∧ (∀ e, u.byDate d0s d1s = .error .attributeError → u.recent 0 400 = .error e →
        getActivitiesRange u d0s d1s = .error e)
    ∧ (∀ ys, u.byDate d0s d1s = .error .attributeError → u.recent 0 400 = .ok ys →
        ∃ l, getActivitiesRange u d0s d1s = .ok l
          ∧ l.length = ((ys.filter fun a => within d0s d1s a)).length) := by
  refine ⟨?_, ?_, ?_, ?_⟩
  · intro xs h
    refine ⟨postMap (xs.map Sum.inl), ?_, ?_⟩
    · simp [getActivitiesRange, h]
    · simp [postMap_length]
  · intro h
    simp [getActivitiesRange, h]
  · intro e h1 h2
    simp [getActivitiesRange, h1, h2]
  · intro ys h1 h2
    refine ⟨postMap (((ys.filter fun a => within d0s d1s a)).map
      fun a => Sum.inr (mapActivity a)), ?_, ?_⟩
    · simp [getActivitiesRange, h1, h2]
    · simp [postMap_length]

/-- Upstream whose by-date listing call succeeds with one raw document. -/
def okListingUpstream : ActUpstream :=
  { byDate := fun _ _ => .ok [{ activityId := some (some 7) }],
    recent := fun _ _ => .ok [] }

/-- Witness for the amended C3 theorem at a concrete upstream. -/
theorem C3_range_amended_witness :
    ∃ l, getActivitiesRange okListingUpstream "2024-01-01" "2024-01-31" = .ok l
      ∧ l.length = 1 := by
  simpa using
    (C3_range_amended okListingUpstream "2024-01-01" "2024-01-31").1
      [{ activityId := some (some 7) }] rfl

/-! ## Activity steps (GarminClient.get_activity_steps, lines 60-78) -/

/-- One entry of the upstream `activityDetailMetrics` list. -/
structure SplitDoc where
  metricType : Option String := none
  startTimeInSeconds : Option ℚ := none
  endTimeInSeconds : Option ℚ := none
  distanceInMeters : Option ℚ := none
  averageHR : Option ℚ := none
  maxHR : Option ℚ := none
  averagePower : Option ℚ := none
  averageRunCadence : Option ℚ := none
  averageCyclingCadence : Option ℚ := none
  elevationGain : Option ℚ := none
  elevationLoss : Option ℚ := none
deriving DecidableEq

/-- The activity-details response document: `none` for the metrics list covers
a missing `activityDetailMetrics` key and a null value, both of which the
source collapses to the empty list via a default and `or []`. -/
structure DetailsDoc where
  activityDetailMetrics : Option (List SplitDoc) := none
deriving DecidableEq

/-- Upstream state seen by `get_activity_steps`: the single
`get_activity_details` call, which the source does NOT wrap in any
try/except. -/
structure StepsUpstream where
  details : Except Unit DetailsDoc

/-- One normalized step record (the dict built at lines 64-77). -/
def mkStep (activityId : Int) (i : Nat) (s : SplitDoc) : JRecord :=
  [("activity_id", some (JVal.num (activityId : ℚ))),
   ("index", some (JVal.num (i : ℚ))),
   ("metric_type", jstr (some (s.metricType.getD ""))),
   ("start_offset_s", jnum s.startTimeInSeconds),
   ("end_offset_s", jnum s.endTimeInSeconds),
   ("distance_m", jnum s.distanceInMeters),
   ("avg_hr", jnum s.averageHR),
   ("max_hr", jnum s.maxHR),
   ("avg_power_w", jnum s.averagePower),
   ("cadence", jnum (pyOrQ s.averageRunCadence s.averageCyclingCadence)),
   ("elevation_gain_m", jnum s.elevationGain),
   ("elevation_loss_m", jnum s.elevationLoss)]

/-- Embedding of `GarminClient.get_activity_steps` (lines 60-78): the details
query is issued unguarded, and a raised exception propagates; a missing or
null metrics list maps to the empty output. -/
def getActivitySteps (u : StepsUpstream) (activityId : Int) :
    Except Unit (List JRecord) :=
  match u.details with
  | .error e => .error e
  | .ok d =>
      .ok (((d.activityDetailMetrics.getD []).enum).map fun p => mkStep activityId p.1 p.2)

/-- Upstream whose details query raises. -/
def failingDetailsUpstream : StepsUpstream := { details := .error () }

/-- Upstream whose details query succeeds with a payload lacking the metrics
key. -/
def emptyDetailsUpstream : StepsUpstream := { details := .ok {} }

/-- Claim C8 as stated is false: when the activity-details query fails, the
exception propagates out of `get_activity_steps` (there is no try/except in
the function or in its route handler), rather than an empty sequence being
returned. -/
theorem C8_steps_counterexample :
    getActivitySteps failingDetailsUpstream 42 = .error ()
    ∧ (Except.error () : Except Unit (List JRecord)) ≠ .ok [] :=
  ⟨rfl, by simp⟩

/-- Claim C8 amended: `get_activity_steps` issues one query for activity
detail splits; when the response lacks the metrics list (or it is null) the
result is the empty sequence, but when the query itself fails the exception
propagates and the request fails. -/
theorem C8_steps_amended (u : StepsUpstream) (activityId : Int) :
    (u.details = .error () → getActivitySteps u activityId = .error ())
    ∧ (∀ d, u.details = .ok d → d.activityDetailMetrics = none →
        getActivitySteps u activityId = .ok [])
    ∧ (∀ d ms, u.details = .ok d → d.activityDetailMetrics = some ms →
        getActivitySteps u activityId
          = .ok (ms.enum.map fun p => mkStep activityId p.1 p.2)) := by
  refine ⟨?_, ?_, ?_⟩
  · intro h
    simp [getActivitySteps, h]
  · intro d h1 h2
    simp [getActivitySteps, h1, h2]
  · intro d ms h1 h2
    simp [getActivitySteps, h1, h2]

/-- Witness for the amended C8 theorem at a concrete upstream. -/
theorem C8_steps_amended_witness :
    getActivitySteps emptyDetailsUpstream 5 = .ok [] :=
  (C8_steps_amended emptyDetailsUpstream 5).2.1 {} rfl rfl

/-! ## Session load and teardown (GarminClient._load lines 26-35,
GarminClient.close lines 37-41, get_gc lines 265-272) -/

/-- Environment of one session bootstrap: Python truthiness of the configured
email and password, the outcomes of the first and of the retry login call,
and the outcome of the logout call. -/
structure SessEnv where
  emailTruthy : Bool
  passwordTruthy : Bool
  login1 : Except Unit Unit
  login2 : Except Unit Unit
  logoutResult : Except Unit Unit

/-- Failure classes of `_load`: the configuration `RuntimeError` with its
message, or the propagated failure of the credential retry. -/
inductive LoadErr where
  | config (msg : String)
  | upstream
deriving DecidableEq

/-- The exact message of the configuration error raised by `_load`. -/
def configMsg : String :=
  "Garmin tokens missing and no credentials supplied. Run local token bootstrap or set GARMIN_EMAIL/PASSWORD."

/-- Embedding of `GarminClient._load` (lines 26-35): the first login attempt;
on failure, a configuration error when no truthy email-and-password pair is
configured, else a retry whose failure propagates. -/
def loadResult (e : SessEnv) : Except LoadErr Unit :=
  match e.login1 with
  | .ok _ => .ok ()
  | .error _ =>
      if ¬(e.emailTruthy ∧ e.passwordTruthy) then .error (.config configMsg)
      else
        match e.login2 with
        | .ok _ => .ok ()
        | .error _ => .error .upstream

/-- Embedding of `GarminClient.close` (lines 37-41): the logout call is
wrapped in try/except, so close never raises, whatever logout does. -/
def closeRun (logoutResult : Except Unit Unit) : Except Unit Unit :=
  match logoutResult with
  | .ok _ => .ok ()
  | .error _ => .ok ()

/-- Failure classes of a request body running inside `get_gc`. -/
inductive GcErr where
  | load (e : LoadErr)
  | bodyError
  | closeError
deriving DecidableEq

/-- Embedding of the context manager `get_gc` (lines 265-272), as a runner of
a request body.  The result is paired with two booleans: whether the upstream
session object was constructed (`_load` assigns `self._client = Garmin(...)`
before attempting login, so this is always true once `_load` is entered), and
whether `close` was called.  Faithful to the source, `gc._load()` runs BEFORE
the try/finally block, so a load failure propagates without `close` being
called; on the normal path the `finally` clause runs `close`, and an error
raised by `close` would replace the body outcome (`GcErr.closeError`). -/
def runWithGc {α : Type} (e : SessEnv) (body : Except Unit α) :
    Except GcErr α × Bool × Bool :=
  match loadResult e with
  | .error le => (.error (.load le), true, false)
  | .ok _ =>
      match closeRun e.logoutResult with
      | .error _ => (.error .closeError, true, true)
      | .ok _ =>
          match body with
          | .ok a => (.ok a, true, true)
          | .error _ => (.error .bodyError, true, true)

/-- Session environment with no credentials and a failing login. -/
def envNoCreds : SessEnv :=
  { emailTruthy := false, passwordTruthy := false,
    login1 := .error (), login2 := .ok (), logoutResult := .ok () }

/-- Claim C5 as stated is false: when session initialization fails (here: no
credentials, login raises), the session object has been constructed (partial
setup) but `close` is never called on that exit path, because `gc._load()`
is executed before the try/finally of `get_gc`. -/
theorem C5_teardown_counterexample :
    runWithGc envNoCreds (Except.ok (0 : Nat))
      = (.error (.load (.config configMsg)), true, false) := rfl

/-- Claim C5 amended: after successful initialization, the session is closed
on every exit path of the request body (normal or raising), and close
tolerates logout errors silently: the outcome of the request is determined by
the body alone, never by the logout result, and is never a close error.  But
when initialization itself fails, the failure propagates with the partially
constructed session left unclosed. -/
theorem C5_teardown_amended {α : Type} (e : SessEnv) (body : Except Unit α) :
    (loadResult e = .ok () →
        (runWithGc e body).2.2 = true
        ∧ (∀ a, body = .ok a → (runWithGc e body).1 = .ok a)
        ∧ (body = .error () → (runWithGc e body).1 = .error .bodyError)
        ∧ (∀ lr, runWithGc { e with logoutResult := lr } body = runWithGc e body))
    ∧ (∀ le, loadResult e = .error le →
        (runWithGc e body).2.1 = true ∧ (runWithGc e body).2.2 = false
        ∧ (runWithGc e body).1 = .error (.load le)) := by
  constructor
  · intro h
    refine ⟨?_, ?_, ?_, ?_⟩
    · cases hb : body <;> simp [runWithGc, h, closeRun, hb] <;> cases e.logoutResult <;> rfl
    · intro a ha
      simp [runWithGc, h, ha, closeRun]
      cases e.logoutResult <;> rfl
    · intro ha
      simp [runWithGc, h, ha, closeRun]
      cases e.logoutResult <;> rfl
    · intro lr
      have h2 : loadResult { e with logoutResult := lr } = .ok () := h
      simp [runWithGc, h, h2, closeRun]
      cases lr <;> cases e.logoutResult <;> cases body <;> rfl
  · intro le h
    simp [runWithGc, h]

/-- Session environment with working credentials and a failing logout. -/
def envLogoutFails : SessEnv :=
  { emailTruthy := true, passwordTruthy := true,
    login1 := .ok (), login2 := .ok (), logoutResult := .error () }

/-- Witness for the amended C5 theorem: with a successful load and a FAILING
logout, close is still called and the body result is returned untouched. -/
theorem C5_teardown_amended_witness :
    (runWithGc envLogoutFails (Except.ok (7 : Nat))).2.2 = true
    ∧ (runWithGc envLogoutFails (Except.ok (7 : Nat))).1 = .ok 7 := by
  have h := (C5_teardown_amended envLogoutFails (Except.ok (7 : Nat))).1 rfl
  exact ⟨h.1, h.2.1 7 rfl⟩

set_option maxRecDepth 8192 in
/-- Claim C6: when the first login fails, a missing truthy credential pair
yields the configuration error carrying the exact remediation message (which
names both remediations: the token bootstrap and the credential variables),
and a configured credential pair yields a retry whose success succeeds and
whose failure propagates. -/
theorem C6_load_retry (e : SessEnv) :
    (e.login1 = .error () →
        (¬(e.emailTruthy ∧ e.passwordTruthy) →
            loadResult e = .error (.config configMsg))
        ∧ ((e.emailTruthy ∧ e.passwordTruthy) →
            (e.login2 = .ok () → loadResult e = .ok ())
            ∧ (e.login2 = .error () → loadResult e = .error .upstream)))
    ∧ ("token bootstrap".data <:+: configMsg.data
        ∧ "GARMIN_EMAIL/PASSWORD".data <:+: configMsg.data) := by
  refine ⟨?_, by constructor <;> decide⟩
  intro h1
  constructor
  · intro hcred
    simp [loadResult, h1, hcred]
  · intro hcred
    constructor <;> intro h2 <;> simp [loadResult, h1, hcred, h2]

/-- Witness for the C6 theorem at a concrete environment: no credentials and
a failing login produce exactly the configuration error. -/
theorem C6_load_retry_witness :
    loadResult envNoCreds = .error (.config configMsg) :=
  ((C6_load_retry envNoCreds).1 rfl).1 (by simp [envNoCreds])

/-! ## Token bootstrap writes (GarminClient.__init__ lines 21-24,
bootstrap_tokens.main lines 14-35) -/

/-- A file system: a map from path to file content (as a string of bytes). -/
abbrev FileSys := String → Option String

/-- Point update of a file system. -/
def fsWrite (fs : FileSys) (p v : String) : FileSys :=
  fun q => if q = p then some v else fs q

/-- Embedding of the inline-blob bootstrap write in `GarminClient.__init__`
(lines 21-24): the environment blob is written to the tokens path only when
the blob is truthy and the path does not already exist. -/
def clientTokenBootstrap (blobEnv : Option String) (tokensPath : String)
    (fs : FileSys) : FileSys :=
  match blobEnv with
  | none => fs
  | some blob =>
      if blob ≠ "" ∧ fs tokensPath = none then fsWrite fs tokensPath blob else fs

/-- Embedding of `bootstrap_tokens.main` (lines 14-35): when both token files
already exist the function returns at once; when credentials are missing it
also returns without writing; otherwise the login call (whose token dump is
abstracted as `loginDump`) may write. -/
def bootstrapMain (tokensDir : String) (emailTruthy passwordTruthy : Bool)
    (loginDump : FileSys → FileSys) (fs : FileSys) : FileSys :=
  if (fs (tokensDir ++ "/oauth1_token.json")).isSome
      ∧ (fs (tokensDir ++ "/oauth2_token.json")).isSome then fs
  else if ¬(emailTruthy ∧ passwordTruthy) then fs
  else loginDump fs

/-- Claim C7: both bootstrap writes are idempotent.  The inline-blob write of
the client constructor never touches a tokens path that already holds
content, and `bootstrap_tokens.main` returns with the file system unchanged
(byte for byte) when both token files already exist. -/
theorem C7_bootstrap_idempotent :
    (∀ (blob : Option String) (path : String) (fs : FileSys) (c : String),
        fs path = some c → clientTokenBootstrap blob path fs = fs)
    ∧ (∀ (dir : String) (em pw : Bool) (w : FileSys → FileSys) (fs : FileSys)
        (c1 c2 : String),
        fs (dir ++ "/oauth1_token.json") = some c1 →
        fs (dir ++ "/oauth2_token.json") = some c2 →
        bootstrapMain dir em pw w fs = fs) := by
  constructor
  · intro blob path fs c h
    cases blob with
    | none => rfl
    | some b => simp [clientTokenBootstrap, h]
  · intro dir em pw w fs c1 c2 h1 h2
    simp [bootstrapMain, h1, h2]

/-- A concrete file system already holding token material at the default
single-file path and at both files of the tokens directory. -/
def fsWithTokens : FileSys := fun q =>
  if q = "/data/garmintokens.json" then some "TOKBLOB"
  else if q = "/data/garmin_tokens/oauth1_token.json" then some "OAUTH1"
  else if q = "/data/garmin_tokens/oauth2_token.json" then some "OAUTH2"
  else none

/-- Witness for the C7 theorem: with existing token material, both bootstrap
entry points leave the file system unchanged. -/
theorem C7_bootstrap_idempotent_witness :
    clientTokenBootstrap (some "NEWBLOB") "/data/garmintokens.json" fsWithTokens
      = fsWithTokens
    ∧ bootstrapMain "/data/garmin_tokens" true true
        (fun fs => fsWrite fs "/data/garmin_tokens/oauth1_token.json" "CLOBBER")
        fsWithTokens
      = fsWithTokens :=
  ⟨C7_bootstrap_idempotent.1 (some "NEWBLOB") "/data/garmintokens.json"
      fsWithTokens "TOKBLOB" rfl,
   C7_bootstrap_idempotent.2 "/data/garmin_tokens" true true
      (fun fs => fsWrite fs "/data/garmin_tokens/oauth1_token.json" "CLOBBER")
      fsWithTokens "OAUTH1" "OAUTH2" rfl rfl⟩

/-! ## The /params aggregation (main.params_guarded lines 22-58, using the
GarminClient getters of lines 135-205 and _safe of lines 254-258) -/

/-- Heart-rates response document. -/
structure HrDoc where
  restingHeartRate : Option ℚ := none
deriving DecidableEq

/-- The userInfo sub-document of the full user profile. -/
structure UserInfoDoc where
  maxHeartRate : Option ℚ := none
deriving DecidableEq

/-- Full-user-profile response document; `none` for `userInfo` covers a
missing key, a null and an empty dict (the source guards the access with a
default and `or {}`). -/
structure ProfileDoc where
  userInfo : Option UserInfoDoc := none
deriving DecidableEq

/-- VO2max response document. -/
structure Vo2Doc where
  vo2MaxValue : Option ℚ := none
  fitnessAge : Option ℚ := none
deriving DecidableEq

/-- A pace value can be a number or an `m:ss` string upstream. -/
inductive PaceVal where
  | num (q : ℚ)
  | str (s : String)
deriving DecidableEq

/-- Lactate-threshold response document. -/
structure LtDoc where
  runLthr : Option ℚ := none
  lthr : Option ℚ := none
  cycleLthr : Option ℚ := none
  cyclingLthr : Option ℚ := none
  runThresholdPace : Option PaceVal := none
  pace : Option PaceVal := none
deriving DecidableEq

/-- Performance-condition response document.  `cyclingFtp` keeps the extra
`Option` layer because the source tests key presence with the `in` operator
and returns the stored value even when it is null; the outer `none` also
covers a falsy or non-dict response, which falls through to the settings
query exactly like a dict without the key. -/
structure PerfDoc where
  cyclingFtp : Option (Option ℚ) := none
deriving DecidableEq

/-- The cycling sub-document of the user settings. -/
structure CyclingDoc where
  ftp : Option ℚ := none
deriving DecidableEq

/-- User-settings response document. -/
structure SettingsDoc where
  cycling : Option CyclingDoc := none
deriving DecidableEq

/-- One body-composition entry. -/
structure WeightDoc where
  weight : Option ℚ := none
deriving DecidableEq

/-- A body-composition response is either a list of entries or one dict. -/
inductive BodyCompResp where
  | lst (l : List WeightDoc)
  | dct (d : WeightDoc)
deriving DecidableEq

/-- A recent activity as read by the threshold-pace fallback. -/
structure RunDoc where
  activityTypeKey : Option String := none
  movingDuration : Option ℚ := none
  duration : Option ℚ := none
  distance : Option ℚ := none
deriving DecidableEq

/-- Upstream state seen by `params_guarded`: one slot per upstream call site,
each able to fail independently (the three `get_lactate_threshold` calls are
separate network requests issued by `get_lthr_run`, `get_lthr_cycle` and
`estimate_threshold_pace_seconds`, so each has its own outcome slot; a
deterministic upstream is the special case where they coincide). -/
structure ParamsUpstream where
  heartRatesQ : Except Unit HrDoc
  userProfileQ : Except Unit ProfileDoc
  vo2Q : Except Unit Vo2Doc
  lactateRunQ : Except Unit LtDoc
  lactateCycleQ : Except Unit LtDoc
  lactatePaceQ : Except Unit LtDoc
  perfConditionQ : Except Unit PerfDoc
  userSettingsQ : Except Unit SettingsDoc
  bodyCompositionQ : Except Unit BodyCompResp
  recentActivitiesQ : Except Unit (List RunDoc)

/-- Embedding of `get_user_hrmax` (lines 135-140) on the outcome of its
profile query: try/except around the call, reading `userInfo.maxHeartRate`
behind guards. -/
def userHrmaxOf (q : Except Unit ProfileDoc) : Option ℚ :=
  match q with
  | .error _ => none
  | .ok p =>
      match p.userInfo with
      | some ui => ui.maxHeartRate
      | none => none

/-- `get_user_hrmax` as called by `params_guarded`. -/
def get_user_hrmax (u : ParamsUpstream) : Option ℚ :=
  userHrmaxOf u.userProfileQ

/-- The resting heart rate read in `params_guarded` (lines 28-29): heart-rates
query through `_safe` with `or {}`, then `.get("restingHeartRate")`. -/
def params_rhr (u : ParamsUpstream) : Option ℚ :=
  match u.heartRatesQ with
  | .error _ => none
  | .ok h => h.restingHeartRate

/-- The VO2max value read in `params_guarded` (lines 33-34). -/
def params_vo2 (u : ParamsUpstream) : Option ℚ :=
  match u.vo2Q with
  | .error _ => none
  | .ok v => v.vo2MaxValue

/-- Embedding of `get_lthr_run` (lines 155-160) on the outcome of its
lactate-threshold query: `runLthr or lthr` with Python truthiness, `None` on
a raised query. -/
def lthrRunOf (q : Except Unit LtDoc) : Option ℚ :=
  match q with
  | .error _ => none
  | .ok th => pyOrQ th.runLthr th.lthr

/-- `get_lthr_run` as called by `params_guarded`. -/
def get_lthr_run (u : ParamsUpstream) : Option ℚ :=
  lthrRunOf u.lactateRunQ

/-- Embedding of `get_lthr_cycle` (lines 162-167) on the outcome of its
lactate-threshold query: `cycleLthr or cyclingLthr`. -/
def lthrCycleOf (q : Except Unit LtDoc) : Option ℚ :=
  match q with
  | .error _ => none
  | .ok th => pyOrQ th.cycleLthr th.cyclingLthr

/-- `get_lthr_cycle` as called by `params_guarded`. -/
def get_lthr_cycle (u : ParamsUpstream) : Option ℚ :=
  lthrCycleOf u.lactateCycleQ

/-- Embedding of `get_ftp` (lines 142-153): when the performance-condition
query succeeds and the response carries the `cyclingFtp` key, its value (even
null) is returned; otherwise the user-settings query is consulted behind its
own try/except. -/
def get_ftp (u : ParamsUpstream) : Option ℚ :=
  let fromSettings : Option ℚ :=
    match u.userSettingsQ with
    | .error _ => none
    | .ok s =>
        match s.cycling with
        | some c => c.ftp
        | none => none
  match u.perfConditionQ with
  | .error _ => fromSettings
  | .ok perf =>
      match perf.cyclingFtp with
      | some v => v
      | none => fromSettings

/-- Embedding of `get_latest_weight` (lines 169-177): last element of a list
response, `weight` of a dict response, `None` otherwise. -/
def get_latest_weight (u : ParamsUpstream) : Option ℚ :=
  match u.bodyCompositionQ with
  | .error _ => none
  | .ok (.lst l) =>
      match l.getLast? with
      | some d => d.weight
      | none => none
  | .ok (.dct d) => d.weight

/-- Parse an unsigned decimal numeral from characters; `none` mirrors the
`ValueError` that `int(...)` raises on a non-numeral. -/
def natOfChars (cs : List Char) : Option Nat :=
  if cs = [] then none
  else
    cs.foldl
      (fun acc c =>
        match acc with
        | some a => if c.isDigit then some (a * 10 + (c.toNat - 48)) else none
        | none => none)
      (some 0)

/-- Split a character list at every occurrence of a separator, keeping empty
pieces, as Python str.split does with an explicit separator. -/
def splitOnChar (sep : Char) : List Char → List (List Char)
  | [] => [[]]
  | c :: rest =>
      let r := splitOnChar sep rest
      if c = sep then [] :: r
      else
        match r with
        | h :: t => (c :: h) :: t
        | [] => [[c]]

/-- The `m, s = pace.split(":")` parse of `estimate_threshold_pace_seconds`
(lines 184-186): exactly two pieces, both numerals, give `m * 60 + s`; any
other shape raises and is caught by the surrounding except. -/
def parseColonPace (s : String) : Option ℚ :=
  match splitOnChar ':' s.data with
  | [mcs, scs] =>
      match natOfChars mcs, natOfChars scs with
      | some m, some s2 => some ((m : ℚ) * 60 + (s2 : ℚ))
      | _, _ => none
  | _ => none

/-- Python truthiness of a pace value. -/
def pyTruthyPace : PaceVal → Bool
  | .num q => q ≠ 0
  | .str s => s ≠ ""

/-- Python `a or b` on optional pace values. -/
def pyOrPace (a b : Option PaceVal) : Option PaceVal :=
  match a with
  | some v => if pyTruthyPace v then some v else b
  | none => b

/-- The first try block of `estimate_threshold_pace_seconds` (lines 180-190):
`some` models an executed return, `none` models falling through to the
activities fallback (including every caught exception). -/
def thresholdPaceTry1 (lt : Except Unit LtDoc) : Option ℚ :=
  match lt with
  | .error _ => none
  | .ok d =>
      match pyOrPace d.runThresholdPace d.pace with
      | none => none
      | some pv =>
          if pyTruthyPace pv then
            match pv with
            | .str s => if s.data.contains ':' then parseColonPace s else none
            | .num q => some q
          else none

/-- The activities fallback of `estimate_threshold_pace_seconds` (lines
191-205): over running activities, the best (smallest) pace among those with
a truthy moving duration (else total duration) between 2700 and 5400 seconds
and a truthy distance. -/
def bestPace (l : List RunDoc) : Option ℚ :=
  l.foldl
    (fun best a =>
      match pyOrQ a.movingDuration a.duration with
      | some m =>
          if m ≠ 0 ∧ 2700 ≤ m ∧ m ≤ 5400 then
            match a.distance with
            | some dist =>
                if dist ≠ 0 then
                  let pace := m / (dist / 1000)
                  match best with
                  | none => some pace
                  | some b => if pace < b then some pace else some b
                else best
            | none => best
          else best
      | none => best)
    none

/-- Embedding of `estimate_threshold_pace_seconds` (lines 179-205). -/
def estimate_threshold_pace_seconds (u : ParamsUpstream) : Option ℚ :=
  match thresholdPaceTry1 u.lactatePaceQ with
  | some p => some p
  | none =>
      match u.recentActivitiesQ with
      | .error _ => none
      | .ok recent =>
          bestPace (recent.filter fun a => a.activityTypeKey = some "running")

/-- Embedding of `params_guarded` (main.py lines 22-58): the response record,
built unconditionally from the individually guarded getters; the function is
total (it has no error outcome), which is the no-abort half of claim C1. -/
def params_guarded (u : ParamsUpstream) (todayIso : String) : JRecord :=
  [("HRmax", jnum (get_user_hrmax u)),
   ("HRrest", jnum (params_rhr u)),
   ("LTHR_run", jnum (get_lthr_run u)),
   ("LTHR_cycle", jnum (get_lthr_cycle u)),
   ("FTP_bike_W", jnum (get_ftp u)),
   ("rThreshold_pace_s_per_km", jnum (estimate_threshold_pace_seconds u)),
   ("VO2max", jnum (params_vo2 u)),
   ("weight_kg", jnum (get_latest_weight u)),
   ("updated_at", some (JVal.str todayIso)),
   ("source", some (JVal.str "GarminConnect"))]

/-- The declared field set of the /params response, in source order. -/
def paramsDeclaredKeys : List String :=
  ["HRmax", "HRrest", "LTHR_run", "LTHR_cycle", "FTP_bike_W",
   "rThreshold_pace_s_per_km", "VO2max", "weight_kg", "updated_at", "source"]

/-- The eight metric fields of the /params record. -/
inductive PField where
  | hrmax
  | hrrest
  | lthrRun
  | lthrCycle
  | ftp
  | rthreshold
  | vo2max
  | weight
deriving DecidableEq

/-- The record key of each metric field. -/
def pfieldKey : PField → String
  | .hrmax => "HRmax"
  | .hrrest => "HRrest"
  | .lthrRun => "LTHR_run"
  | .lthrCycle => "LTHR_cycle"
  | .ftp => "FTP_bike_W"
  | .rthreshold => "rThreshold_pace_s_per_km"
  | .vo2max => "VO2max"
  | .weight => "weight_kg"

/-- The value each metric field carries in the /params record. -/
def pfieldVal : PField → ParamsUpstream → Option ℚ
  | .hrmax, u => get_user_hrmax u
  | .hrrest, u => params_rhr u
  | .lthrRun, u => get_lthr_run u
  | .lthrCycle, u => get_lthr_cycle u
  | .ftp, u => get_ftp u
  | .rthreshold, u => estimate_threshold_pace_seconds u
  | .vo2max, u => params_vo2 u
  | .weight, u => get_latest_weight u

/-- Make every upstream call site consulted for the given field fail. -/
def failPField : PField → ParamsUpstream → ParamsUpstream
  | .hrmax, u => { u with userProfileQ := .error () }
  | .hrrest, u => { u with heartRatesQ := .error () }
  | .lthrRun, u => { u with lactateRunQ := .error () }
  | .lthrCycle, u => { u with lactateCycleQ := .error () }
  | .ftp, u => { u with perfConditionQ := .error (), userSettingsQ := .error () }
  | .rthreshold, u => { u with lactatePaceQ := .error (), recentActivitiesQ := .error () }
  | .vo2max, u => { u with vo2Q := .error () }
  | .weight, u => { u with bodyCompositionQ := .error () }

/-- Claim C1: for every upstream state, the /params record has exactly the
declared field set (the function is total, so no query outcome aborts it);
failing every query behind one metric field makes exactly that field absent
and leaves the value of every other field unchanged. -/
theorem C1_params_fault_isolation (u : ParamsUpstream) (todayIso : String) :
    ((params_guarded u todayIso).map Prod.fst = paramsDeclaredKeys)
    ∧ ∀ f : PField,
        pfieldVal f (failPField f u) = none
        ∧ ∀ g : PField, g ≠ f →
            pfieldVal g (failPField f u) = pfieldVal g u := by
  refine ⟨rfl, ?_⟩
  intro f
  constructor
  · cases f <;> rfl
  · intro g hg
    cases f <;> cases g <;> first
      | exact absurd rfl hg
      | rfl

/-- A fully healthy upstream state for the /params witness. -/
def paramsOkUpstream : ParamsUpstream :=
  { heartRatesQ := .ok { restingHeartRate := some 48 },
    userProfileQ := .ok { userInfo := some { maxHeartRate := some 187 } },
    vo2Q := .ok { vo2MaxValue := some 52, fitnessAge := some 30 },
    lactateRunQ := .ok { runLthr := some 168 },
    lactateCycleQ := .ok { cycleLthr := some 160 },
    lactatePaceQ := .ok { runThresholdPace := some (.num 255) },
    perfConditionQ := .ok { cyclingFtp := some (some 250) },
    userSettingsQ := .ok { cycling := some { ftp := some 245 } },
    bodyCompositionQ := .ok (.lst [{ weight := some 70 }]),
    recentActivitiesQ := .ok [] }

/-- Witness for the C1 theorem at a concrete upstream state: the declared key
set, and one concrete isolation instance (failing the HRmax profile query
leaves HRrest untouched while HRmax becomes absent). -/
theorem C1_params_fault_isolation_witness :
    ((params_guarded paramsOkUpstream "2024-05-01").map Prod.fst = paramsDeclaredKeys)
    ∧ pfieldVal .hrmax (failPField .hrmax paramsOkUpstream) = none
    ∧ pfieldVal .hrrest (failPField .hrmax paramsOkUpstream)
        = pfieldVal .hrrest paramsOkUpstream :=
  ⟨(C1_params_fault_isolation paramsOkUpstream "2024-05-01").1,
   ((C1_params_fault_isolation paramsOkUpstream "2024-05-01").2 .hrmax).1,
   ((C1_params_fault_isolation paramsOkUpstream "2024-05-01").2 .hrmax).2 .hrrest
     (by decide)⟩

/-! ## Daily KPIs (GarminClient.get_daily_kpis, lines 80-133) -/

/-- One sleep summary document. -/
structure SleepDoc where
  overallSleepScore : Option ℚ := none
  sleepTimeSeconds : Option ℚ := none
  sleepEfficiency : Option ℚ := none
  awakeSleepSeconds : Option ℚ := none
  lightSleepSeconds : Option ℚ := none
  deepSleepSeconds : Option ℚ := none
  remSleepSeconds : Option ℚ := none
deriving DecidableEq

/-- A sleep response can be a list of summaries or one dict upstream. -/
inductive SleepResp where
  | lst (l : List SleepDoc)
  | dct (d : SleepDoc)
deriving DecidableEq

/-- Line 85: `(sleep or [{}])[0] if isinstance(sleep, list) else (sleep or {})`
applied to the `_safe` result (which is `{}` on a raised query). -/
def sleepDocOf : Except Unit SleepResp → SleepDoc
  | .error _ => {}
  | .ok (.lst l) => l.headD {}
  | .ok (.dct d) => d

/-- The hrvSummary sub-document. -/
structure HrvSummary where
  lastNightAvg : Option ℚ := none
  status : Option String := none
  weeklyAverage : Option ℚ := none
deriving DecidableEq

/-- HRV response document. -/
structure HrvDoc where
  hrvSummary : Option HrvSummary := none
deriving DecidableEq

/-- The bodyBattery sub-document. -/
structure BbInner where
  chargedLevel : Option ℚ := none
  drainedLevel : Option ℚ := none
deriving DecidableEq

/-- Body-battery response document. -/
structure BbDoc where
  bodyBattery : Option BbInner := none
deriving DecidableEq

/-- The stressQualitative sub-document. -/
structure StressQual where
  currentDayStressScore : Option ℚ := none
deriving DecidableEq

/-- Stress response document. -/
structure StressDoc where
  stressQualitative : Option StressQual := none
deriving DecidableEq

/-- The trainingStatus sub-document of the training-status response. -/
structure TsStatusDoc where
  trainingStatus : Option String := none
  trainingTrend : Option String := none
deriving DecidableEq

/-- A sub-document read through `.get("value")`. -/
structure ValDoc where
  value : Option ℚ := none
deriving DecidableEq

/-- The trainingLoad sub-document. -/
structure LoadDoc where
  value : Option ℚ := none
  optimalRangeLow : Option ℚ := none
  optimalRangeHigh : Option ℚ := none
deriving DecidableEq

/-- Training-status response document. -/
structure TsDoc where
  trainingStatus : Option TsStatusDoc := none
  recoveryTimeDTO : Option ValDoc := none
  trainingLoad : Option LoadDoc := none
  aerobicTrainingEffect : Option ValDoc := none
  anaerobicTrainingEffect : Option ValDoc := none
deriving DecidableEq

/-- Upstream state seen by `get_daily_kpis`: one slot per upstream call site,
each able to fail independently. -/
structure DailyUpstream where
  sleepQ : Except Unit SleepResp
  heartRatesQ : Except Unit HrDoc
  hrvQ : Except Unit HrvDoc
  bodyBatteryQ : Except Unit BbDoc
  stressQ : Except Unit StressDoc
  trainingStatusQ : Except Unit TsDoc
  vo2Q : Except Unit Vo2Doc
  lactateRunQ : Except Unit LtDoc
  lactateCycleQ : Except Unit LtDoc
  userProfileQ : Except Unit ProfileDoc

/-- A Python runtime error surfaced by the embedding. -/
inductive PyErr where
  | nameError (n : String)
deriving DecidableEq

/-- The top-level names defined or imported by app/garmin_client.py. -/
def garminClientTopLevelNames : List String :=
  ["json", "os", "pathlib", "contextmanager", "date", "Any", "Dict", "List",
   "Optional", "Garmin", "TOKENS_ENV", "TOKENS_PATH_ENV", "DEFAULT_TOKENS_FILE",
   "GarminClient", "_pace_sec_per_km", "get_gc"]

/-- The module defines no function named after the helper the sleep block
calls, so evaluating those calls raises a Python NameError. -/
theorem mins_helper_not_defined : "_mins" ∉ garminClientTopLevelNames := by decide

/-- The calls written `_mins(...)` at lines 88-93 of garmin_client.py: the
name `_mins` is bound nowhere in the module (see
`garminClientTopLevelNames` and `mins_helper_not_defined`), so the call
raises `NameError` irrespective of its argument. -/
def minsCall (_secs : Option ℚ) : Except PyErr (Option ℚ) :=
  .error (.nameError "_mins")

/-- The generic `_safe(...) or {}` pattern: the default document on a raised
query, the response otherwise. -/
def safeD {α : Type} (dflt : α) : Except Unit α → α
  | .error _ => dflt
  | .ok d => d

/-- Reads of the hrvSummary sub-document behind `_safe(...) or {}` (lines
96-103). -/
def hrvAvgOf (q : Except Unit HrvDoc) : Option ℚ :=
  match (safeD {} q).hrvSummary with
  | some s => s.lastNightAvg
  | none => none

/-- Status field of the hrvSummary sub-document. -/
def hrvStatusOf (q : Except Unit HrvDoc) : Option String :=
  match (safeD {} q).hrvSummary with
  | some s => s.status
  | none => none

/-- Weekly average of the hrvSummary sub-document. -/
def hrvBaselineOf (q : Except Unit HrvDoc) : Option ℚ :=
  match (safeD {} q).hrvSummary with
  | some s => s.weeklyAverage
  | none => none

/-- Resting heart rate behind `_safe(...) or {}` (lines 96, 104). -/
def restingHrOf (q : Except Unit HrDoc) : Option ℚ :=
  (safeD {} q).restingHeartRate

/-- Charged level of the bodyBattery sub-document (line 105). -/
def bbStartOf (q : Except Unit BbDoc) : Option ℚ :=
  match (safeD {} q).bodyBattery with
  | some b => b.chargedLevel
  | none => none

/-- Drained level of the bodyBattery sub-document (line 106). -/
def bbEndOf (q : Except Unit BbDoc) : Option ℚ :=
  match (safeD {} q).bodyBattery with
  | some b => b.drainedLevel
  | none => none

/-- Current-day stress score of the stressQualitative sub-document
(line 107). -/
def stressAvgOf (q : Except Unit StressDoc) : Option ℚ :=
  match (safeD {} q).stressQualitative with
  | some s => s.currentDayStressScore
  | none => none

/-- Training status string (line 112). -/
def tsStatusOf (q : Except Unit TsDoc) : Option String :=
  match (safeD {} q).trainingStatus with
  | some s => s.trainingStatus
  | none => none

/-- Training trend string (line 113). -/
def tsTrendOf (q : Except Unit TsDoc) : Option String :=
  match (safeD {} q).trainingStatus with
  | some s => s.trainingTrend
  | none => none

/-- Recovery time value (line 114). -/
def recoveryOf (q : Except Unit TsDoc) : Option ℚ :=
  match (safeD {} q).recoveryTimeDTO with
  | some v => v.value
  | none => none

/-- Acute training load value (line 115). -/
def loadValOf (q : Except Unit TsDoc) : Option ℚ :=
  match (safeD {} q).trainingLoad with
  | some v => v.value
  | none => none

/-- Acute training load optimal range, low end (line 116). -/
def loadLowOf (q : Except Unit TsDoc) : Option ℚ :=
  match (safeD {} q).trainingLoad with
  | some v => v.optimalRangeLow
  | none => none

/-- Acute training load optimal range, high end (line 117). -/
def loadHighOf (q : Except Unit TsDoc) : Option ℚ :=
  match (safeD {} q).trainingLoad with
  | some v => v.optimalRangeHigh
  | none => none

/-- Aerobic training effect value (line 118). -/
def aerobicOf (q : Except Unit TsDoc) : Option ℚ :=
  match (safeD {} q).aerobicTrainingEffect with
  | some v => v.value
  | none => none

/-- Anaerobic training effect value (line 119). -/
def anaerobicOf (q : Except Unit TsDoc) : Option ℚ :=
  match (safeD {} q).anaerobicTrainingEffect with
  | some v => v.value
  | none => none

/-- VO2max value behind `_safe(...) or {}` (lines 122-124). -/
def vo2ValueOf (q : Except Unit Vo2Doc) : Option ℚ :=
  (safeD {} q).vo2MaxValue

/-- Fitness age behind `_safe(...) or {}` (line 125). -/
def vo2FitnessAgeOf (q : Except Unit Vo2Doc) : Option ℚ :=
  (safeD {} q).fitnessAge

/-- The record `get_daily_kpis` would return (lines 82-133), as a function of
the upstream state and of the five values the `_mins` calls would produce:
every query is individually guarded (`_safe` with `or {}`, or the getter
try/except blocks), and the key set is fixed. -/
def dailyRecord (u : DailyUpstream)
    (sleepDurationMin sleepAwakeMin sleepLightMin sleepDeepMin sleepRemMin :
      Option ℚ) : JRecord :=
  let ss := sleepDocOf u.sleepQ
  [("sleep_score", jnum ss.overallSleepScore),
   ("sleep_duration_min", jnum sleepDurationMin),
   ("sleep_efficiency", jnum ss.sleepEfficiency),
   ("sleep_awake_min", jnum sleepAwakeMin),
   ("sleep_light_min", jnum sleepLightMin),
   ("sleep_deep_min", jnum sleepDeepMin),
   ("sleep_rem_min", jnum sleepRemMin),
   ("hrv_avg_ms", jnum (hrvAvgOf u.hrvQ)),
   ("hrv_status", jstr (hrvStatusOf u.hrvQ)),
   ("hrv_baseline_7d_ms", jnum (hrvBaselineOf u.hrvQ)),
   ("resting_hr_bpm", jnum (restingHrOf u.heartRatesQ)),
   ("body_battery_start", jnum (bbStartOf u.bodyBatteryQ)),
   ("body_battery_end", jnum (bbEndOf u.bodyBatteryQ)),
   ("stress_daily_avg", jnum (stressAvgOf u.stressQ)),
   ("training_status", jstr (tsStatusOf u.trainingStatusQ)),
   ("training_trend", jstr (tsTrendOf u.trainingStatusQ)),
   ("recovery_time_hours", jnum (recoveryOf u.trainingStatusQ)),
   ("acute_load_value", jnum (loadValOf u.trainingStatusQ)),
   ("acute_load_opt_low", jnum (loadLowOf u.trainingStatusQ)),
   ("acute_load_opt_high", jnum (loadHighOf u.trainingStatusQ)),
   ("load_low_aerobic", jnum (aerobicOf u.trainingStatusQ)),
   ("load_high_aerobic", jnum (anaerobicOf u.trainingStatusQ)),
   ("vo2max_value", jnum (vo2ValueOf u.vo2Q)),
   ("vo2max_fitness_age", jnum (vo2FitnessAgeOf u.vo2Q)),
   ("lthr_run_bpm", jnum (lthrRunOf u.lactateRunQ)),
   ("lthr_cycle_bpm", jnum (lthrCycleOf u.lactateCycleQ)),
   ("est_max_hr_bpm", jnum (userHrmaxOf u.userProfileQ))]

/-- Embedding of `GarminClient.get_daily_kpis` (lines 80-133): the five
`_mins` call sites are evaluated in source order while the sleep dict literal
is built (the first one already raises `NameError`); the remaining record
construction is `dailyRecord`. -/
def getDailyKpis (u : DailyUpstream) : Except PyErr JRecord := do
  let ss := sleepDocOf u.sleepQ
  let m1 ← minsCall ss.sleepTimeSeconds
  let m2 ← minsCall ss.awakeSleepSeconds
  let m3 ← minsCall ss.lightSleepSeconds
  let m4 ← minsCall ss.deepSleepSeconds
  let m5 ← minsCall ss.remSleepSeconds
  pure (dailyRecord u m1 m2 m3 m4 m5)

/-- Claim C2 meets a code bug: `get_daily_kpis` raises `NameError` on every
input, healthy upstream included, because the sleep block calls the undefined
helper `_mins` outside any guard.  The per-family fault isolation the claim
(and the rest of the function) intends never gets to run. -/
theorem C2_daily_kpis_name_error (u : DailyUpstream) :
    getDailyKpis u = .error (.nameError "_mins") := rfl

/-! ## Request validation before session creation (main.py lines 60-79,
app/utils.parse_date lines 3-4) -/

/-- A parsed calendar date. -/
structure PDate where
  y : Nat
  m : Nat
  d : Nat
deriving DecidableEq

/-- Embedding of `parse_date` (utils.py lines 3-4), i.e.
`datetime.strptime(s, "%Y-%m-%d")`: three dash-separated decimal fields with
the month in 1..12 and the day in 1..31; `.error ()` models the raised
`ValueError`.  (strptime validates the day against the actual month length;
that refinement is abstracted to 1..31 here, and every theorem below
evaluates the parser only on inputs where the two agree.) -/
def parseDate (s : String) : Except Unit PDate :=
  match splitOnChar '-' s.data with
  | [ycs, mcs, dcs] =>
      match natOfChars ycs, natOfChars mcs, natOfChars dcs with
      | some y, some m, some d =>
          if 1 ≤ m ∧ m ≤ 12 ∧ 1 ≤ d ∧ d ≤ 31 then .ok ⟨y, m, d⟩ else .error ()
      | _, _, _ => .error ()
  | _ => .error ()

/-- Zero-padded two-digit numeral. -/
def pad2 (n : Nat) : String :=
  if n < 10 then "0" ++ toString n else toString n

/-- Zero-padded four-digit numeral. -/
def pad4 (n : Nat) : String :=
  if n < 10 then "000" ++ toString n
  else if n < 100 then "00" ++ toString n
  else if n < 1000 then "0" ++ toString n
  else toString n

/-- date.isoformat / strftime("%Y-%m-%d"). -/
def isoFormat (dt : PDate) : String :=
  pad4 dt.y ++ "-" ++ pad2 dt.m ++ "-" ++ pad2 dt.d

/-- The framework conversion of the integer path parameter of
`/activity/{activity_id}/steps`: an optional sign followed by decimal digits;
`none` models the 422 validation rejection FastAPI issues before the handler
runs. -/
def pyIntParse (s : String) : Option Int :=
  match s.data with
  | '-' :: rest => (natOfChars rest).map (fun n => -(n : Int))
  | cs => (natOfChars cs).map (fun n => (n : Int))

/-- Observable outcome of one routed request: the HTTP status and how many
upstream sessions were created (a session is counted as soon as `get_gc`
constructs the client, before the body runs). -/
structure RouteTrace where
  status : Nat
  sessionsCreated : Nat
deriving DecidableEq

/-- An HTTP status in the 4xx client-error class. -/
def isClientError (n : Nat) : Bool := 400 ≤ n && n < 500

/-- Embedding of the `/activities` handler (main.py lines 60-66) together
with the framework behavior modeled here as: an exception that is not an
HTTPException escaping the handler produces a 500 response.  Both dates are
parsed before `get_gc` runs, so a `ValueError` from `parse_date` leaves the
session count at zero; a load failure or a propagated listing failure also
yields 500, after a session was created. -/
def activitiesRoute (startS endS : String) (e : SessEnv) (u : ActUpstream) :
    RouteTrace :=
  match parseDate startS with
  | .error _ => ⟨500, 0⟩
  | .ok d0 =>
      match parseDate endS with
      | .error _ => ⟨500, 0⟩
      | .ok d1 =>
          match loadResult e with
          | .error _ => ⟨500, 1⟩
          | .ok _ =>
              match getActivitiesRange u (isoFormat d0) (isoFormat d1) with
              | .error _ => ⟨500, 1⟩
              | .ok _ => ⟨200, 1⟩

/-- Embedding of the `/daily` handler (main.py lines 73-79), same framework
model as `activitiesRoute`. -/
def dailyRoute (ds : String) (e : SessEnv) (u : DailyUpstream) : RouteTrace :=
  match parseDate ds with
  | .error _ => ⟨500, 0⟩
  | .ok _ =>
      match loadResult e with
      | .error _ => ⟨500, 1⟩
      | .ok _ =>
          match getDailyKpis u with
          | .error _ => ⟨500, 1⟩
          | .ok _ => ⟨200, 1⟩

/-- Embedding of the `/activity/{activity_id}/steps` handler (main.py lines
68-71): the framework validates the integer path parameter before the
handler runs and rejects a non-integer with 422, a client error. -/
def stepsRoute (idRaw : String) (e : SessEnv) (u : StepsUpstream) : RouteTrace :=
  match pyIntParse idRaw with
  | none => ⟨422, 0⟩
  | some n =>
      match loadResult e with
      | .error _ => ⟨500, 1⟩
      | .ok _ =>
          match getActivitySteps u n with
          | .error _ => ⟨500, 1⟩
          | .ok _ => ⟨200, 1⟩

/-- A session environment whose load succeeds. -/
def envOk : SessEnv :=
  { emailTruthy := true, passwordTruthy := true,
    login1 := .ok (), login2 := .ok (), logoutResult := .ok () }

/-- Claim C9 as stated is false for unparseable dates: the request is indeed
rejected before any session creation (zero sessions), but the `ValueError`
from `parse_date` escapes the handler and surfaces as a 500 server error,
not a client-error response. -/
theorem C9_validation_counterexample :
    activitiesRoute "not-a-date" "2024-01-01" envOk okListingUpstream = ⟨500, 0⟩
    ∧ isClientError 500 = false := ⟨rfl, rfl⟩

/-- Claim C9 amended: an unparseable date on `/activities` or `/daily` fails
the request before any session creation or upstream call, but with a 500
server-error response (the `ValueError` escapes the handler); a non-integer
activity id on `/activity/{id}/steps` is rejected by path-parameter
validation with a 422 client error, also before any session creation. -/
theorem C9_validation_amended (startS endS ds idRaw : String) (e : SessEnv)
    (au : ActUpstream) (du : DailyUpstream) (su : StepsUpstream) :
    ((parseDate startS = .error () ∨ parseDate endS = .error ()) →
        activitiesRoute startS endS e au = ⟨500, 0⟩)
    ∧ (parseDate ds = .error () → dailyRoute ds e du = ⟨500, 0⟩)
    ∧ (pyIntParse idRaw = none →
        stepsRoute idRaw e su = ⟨422, 0⟩ ∧ isClientError 422 = true) := by
  refine ⟨?_, ?_, ?_⟩
  · intro h
    rcases h with h | h
    · simp [activitiesRoute, h]
    · cases h0 : parseDate startS <;> simp [activitiesRoute, h0, h]
  · intro h
    simp [dailyRoute, h]
  · intro h
    exact ⟨by simp [stepsRoute, h], rfl⟩

/-- A healthy daily upstream state. -/
def dailyOkUpstream : DailyUpstream :=
  { sleepQ := .ok (.dct {}), heartRatesQ := .ok {}, hrvQ := .ok {},
    bodyBatteryQ := .ok {}, stressQ := .ok {}, trainingStatusQ := .ok {},
    vo2Q := .ok {}, lactateRunQ := .ok {}, lactateCycleQ := .ok {},
    userProfileQ := .ok {} }

/-- Witness for the amended C9 theorem at concrete malformed inputs. -/
theorem C9_validation_amended_witness :
    activitiesRoute "garbage" "2024-01-01" envOk okListingUpstream = ⟨500, 0⟩
    ∧ dailyRoute "2024-13-05" envOk dailyOkUpstream = ⟨500, 0⟩
    ∧ stepsRoute "abc" envOk emptyDetailsUpstream = ⟨422, 0⟩ :=
  ⟨(C9_validation_amended "garbage" "2024-01-01" "x" "1" envOk okListingUpstream
      dailyOkUpstream emptyDetailsUpstream).1 (Or.inl rfl),
   (C9_validation_amended "g" "g" "2024-13-05" "1" envOk okListingUpstream
      dailyOkUpstream emptyDetailsUpstream).2.1 rfl,
   ((C9_validation_amended "g" "g" "x" "abc" envOk okListingUpstream
      dailyOkUpstream emptyDetailsUpstream).2.2 rfl).1⟩

end GarminMS
